import Mathlib

/-!
Verification of the user-security route handlers of `src/user/routes.ts`
(card_game_node repository).

The route handlers are shallowly embedded as Lean functions.  Each handler
is parameterised by an abstract `Services` record giving the outcome of
every User Service / Token Service operation (those services live outside
the routing layer); the handler returns the ordered list of service calls
it performed together with its outcome (`Except DomainError Response`).
An `await`ed operation that fails rejects the async handler, so in the
embedding a failing step aborts the handler with that error and no further
calls are recorded — exactly the control flow of the TypeScript source.
-/

set_option autoImplicit false

namespace CardGame

/-- The semantic failure kinds of the security core (spec §7). -/
inductive DomainError where
  | InvalidInput
  | DuplicateLogin
  | NotFound
  | InvalidCredentials
  | UserDisabled
  | InvalidToken
  | Forbidden
  | WeakPassword
  | Transient
  deriving DecidableEq, Repr

/-- Modelled from the spec: the `User` record of the Credential Store
(spec §3); the User Service source (`src/user/service.ts`) is not in the
repository.  The route handlers access the fields `id`, `name`, `login`,
`permissions` and `enabled`; `passwordHash` is the stored credential. -/
structure User where
  id : String
  name : String
  login : String
  passwordHash : String
  permissions : List String
  enabled : Bool
  deriving DecidableEq, Repr

/-- Body of `POST /v1/user` (signUp), passed whole to `user.register`. -/
structure SignUpBody where
  name : String
  login : String
  password : String
  deriving DecidableEq, Repr

/-- Body of `POST /v1/user/signin` (login), passed whole to `user.login`. -/
structure SignInBody where
  login : String
  password : String
  deriving DecidableEq, Repr

/-- Body of `POST /v1/user/password`, passed whole to `user.changePassword`. -/
structure PasswordBody where
  currentPassword : String
  newPassword : String
  deriving DecidableEq, Repr

/-- Body of the grant/revoke routes; the handlers read `req.body.permissions`. -/
structure GrantBody where
  permissions : List String
  deriving DecidableEq, Repr

/-- Modelled from the spec: the session payload attached to the request by
the session-resolver middleware (`ISessionRequest.user`; the middleware
source `src/token/passport.ts` is not in the repository).  The handlers
read `req.user.user_id` and pass `req.user` whole to `token.invalidate`;
`token` is the session-token value the payload was resolved from. -/
structure SessionPayload where
  user_id : String
  token : String
  deriving DecidableEq, Repr

/-- URL parameters of the `/v1/users/:userID/...` routes. -/
structure RouteParams where
  userID : String
  deriving DecidableEq, Repr

/-- A request on a route behind `onlyLoggedIn`: a resolved session payload,
URL parameters and a (route-specific) body. -/
structure SessionRequest (β : Type) where
  user : SessionPayload
  params : RouteParams
  body : β
  deriving DecidableEq, Repr

/-- A request on an anonymous route (signUp / login): just a body. -/
structure PlainRequest (β : Type) where
  body : β
  deriving DecidableEq, Repr

/-- One call from a route handler into the User Service / Token Service,
with the exact arguments the handler passed. -/
inductive Call where
  | hasPermission (callerId : String) (permission : String)
  | grant (userId : String) (permissions : List String)
  | revoke (userId : String) (permissions : List String)
  | enable (userId : String)
  | disable (userId : String)
  | findAll
  | findById (userId : String)
  | register (body : SignUpBody)
  | login (body : SignInBody)
  | changePassword (userId : String) (body : PasswordBody)
  | tokenCreate (userId : String)
  | tokenInvalidate (payload : SessionPayload)
  deriving DecidableEq, Repr

/-- Abstract behaviour of the User Service and Token Service operations
the route handlers await: each operation either succeeds with its value or
fails with a domain error (a rejected promise). -/
structure Services where
  hasPermission : String → String → Except DomainError Unit
  grant : String → List String → Except DomainError Unit
  revoke : String → List String → Except DomainError Unit
  enable : String → Except DomainError Unit
  disable : String → Except DomainError Unit
  findAll : Except DomainError (List User)
  findById : String → Except DomainError User
  register : SignUpBody → Except DomainError String
  login : SignInBody → Except DomainError String
  changePassword : String → PasswordBody → Except DomainError Unit
  tokenCreate : String → Except DomainError String
  tokenInvalidate : SessionPayload → Except DomainError Unit

/-- Projection of a `User` sent by the list-all-users handler
(`getAll`, routes.ts lines 256-264). -/
structure UserListItem where
  id : String
  name : String
  login : String
  permissions : List String
  enabled : Bool
  deriving DecidableEq, Repr

/-- Projection of a `User` sent by the current-user handler
(`current`, routes.ts lines 291-296). -/
structure CurrentUserItem where
  id : String
  name : String
  login : String
  permissions : List String
  deriving DecidableEq, Repr

/-- The response a handler sends on success: `res.send()` with no body, or
one of the `res.json(...)` shapes of routes.ts. -/
inductive Response where
  | empty
  | jsonToken (token : String)
  | jsonUsers (users : List UserListItem)
  | jsonCurrent (item : CurrentUserItem)
  deriving DecidableEq, Repr

/-- Outcome of running a handler: the ordered list of service calls it
performed, and either the response it sent or the propagated failure. -/
structure HResult (α : Type) where
  calls : List Call
  result : Except DomainError α

/-- One `await`ed service call: records the call and its outcome. -/
def callSvc {α : Type} (c : Call) (r : Except DomainError α) : HResult α :=
  ⟨[c], r⟩

/-- Sequencing of handler steps: a failing step aborts the handler (the
rejected promise propagates) and later calls never happen. -/
def hbind {α β : Type} (x : HResult α) (f : α → HResult β) : HResult β :=
  match x.result with
  | Except.error e => ⟨x.calls, Except.error e⟩
  | Except.ok a => ⟨x.calls ++ (f a).calls, (f a).result⟩

/-- A handler step that performs no service call. -/
def hpure {α : Type} (a : α) : HResult α :=
  ⟨[], Except.ok a⟩

/-- routes.ts lines 47-50: `changePassword` — awaits
`user.changePassword(req.user.user_id, req.body)` then `res.send()`. -/
def changePassword (svc : Services) (req : SessionRequest PasswordBody) : HResult Response :=
  hbind (callSvc (Call.changePassword req.user.user_id req.body)
      (svc.changePassword req.user.user_id req.body)) (fun _ =>
    hpure Response.empty)

/-- routes.ts lines 80-84: `signUp` — awaits `user.register(req.body)`,
then `token.create(userId)`, then `res.json({token})`. -/
def signUp (svc : Services) (req : PlainRequest SignUpBody) : HResult Response :=
  hbind (callSvc (Call.register req.body) (svc.register req.body)) (fun userId =>
    hbind (callSvc (Call.tokenCreate userId) (svc.tokenCreate userId)) (fun tokenString =>
      hpure (Response.jsonToken tokenString)))

/-- routes.ts lines 104-108: `login` — awaits `user.login(req.body)`,
then `token.create(userId)`, then `res.json({token})`. -/
def login (svc : Services) (req : PlainRequest SignInBody) : HResult Response :=
  hbind (callSvc (Call.login req.body) (svc.login req.body)) (fun userId =>
    hbind (callSvc (Call.tokenCreate userId) (svc.tokenCreate userId)) (fun tokenString =>
      hpure (Response.jsonToken tokenString)))

/-- routes.ts lines 123-126: `logout` — awaits `token.invalidate(req.user)`
then `res.send()`. -/
def logout (svc : Services) (req : SessionRequest Unit) : HResult Response :=
  hbind (callSvc (Call.tokenInvalidate req.user) (svc.tokenInvalidate req.user)) (fun _ =>
    hpure Response.empty)

/-- routes.ts lines 150-154: `grantPermissions` — awaits
`user.hasPermission(req.user.user_id, "admin")`, then
`user.grant(req.params.userID, req.body.permissions)`, then `res.send()`. -/
def grantPermissions (svc : Services) (req : SessionRequest GrantBody) : HResult Response :=
  hbind (callSvc (Call.hasPermission req.user.user_id "admin")
      (svc.hasPermission req.user.user_id "admin")) (fun _ =>
    hbind (callSvc (Call.grant req.params.userID req.body.permissions)
        (svc.grant req.params.userID req.body.permissions)) (fun _ =>
      hpure Response.empty))

/-- routes.ts lines 177-181: `revokePermissions` — awaits
`user.hasPermission(req.user.user_id, "admin")`, then
`user.revoke(req.params.userID, req.body.permissions)`, then `res.send()`. -/
def revokePermissions (svc : Services) (req : SessionRequest GrantBody) : HResult Response :=
  hbind (callSvc (Call.hasPermission req.user.user_id "admin")
      (svc.hasPermission req.user.user_id "admin")) (fun _ =>
    hbind (callSvc (Call.revoke req.params.userID req.body.permissions)
        (svc.revoke req.params.userID req.body.permissions)) (fun _ =>
      hpure Response.empty))

/-- routes.ts lines 200-204: `enableUser` — awaits
`user.hasPermission(req.user.user_id, "admin")`, then
`user.enable(req.params.userID)`, then `res.send()`. -/
def enableUser (svc : Services) (req : SessionRequest Unit) : HResult Response :=
  hbind (callSvc (Call.hasPermission req.user.user_id "admin")
      (svc.hasPermission req.user.user_id "admin")) (fun _ =>
    hbind (callSvc (Call.enable req.params.userID) (svc.enable req.params.userID)) (fun _ =>
      hpure Response.empty))

/-- routes.ts lines 222-226: `disableUser` — awaits
`user.hasPermission(req.user.user_id, "admin")`, then
`user.disable(req.params.userID)`, then `res.send()`. -/
def disableUser (svc : Services) (req : SessionRequest Unit) : HResult Response :=
  hbind (callSvc (Call.hasPermission req.user.user_id "admin")
      (svc.hasPermission req.user.user_id "admin")) (fun _ =>
    hbind (callSvc (Call.disable req.params.userID) (svc.disable req.params.userID)) (fun _ =>
      hpure Response.empty))

/-- routes.ts lines 256-264: the element-wise projection applied by
`getAll` to each user returned by `user.findAll()`. -/
def projectUser (u : User) : UserListItem :=
  ⟨u.id, u.name, u.login, u.permissions, u.enabled⟩

/-- routes.ts lines 252-265: `getAll` — awaits
`user.hasPermission(req.user.user_id, "admin")`, then `user.findAll()`,
then sends the projected list as JSON. -/
def getAll (svc : Services) (req : SessionRequest Unit) : HResult Response :=
  hbind (callSvc (Call.hasPermission req.user.user_id "admin")
      (svc.hasPermission req.user.user_id "admin")) (fun _ =>
    hbind (callSvc Call.findAll svc.findAll) (fun users =>
      hpure (Response.jsonUsers (users.map projectUser))))

/-- routes.ts lines 289-297: `current` — awaits
`user.findById(req.user.user_id)` and sends the projection as JSON. -/
def current (svc : Services) (req : SessionRequest Unit) : HResult Response :=
  hbind (callSvc (Call.findById req.user.user_id) (svc.findById req.user.user_id))
    (fun response =>
      hpure (Response.jsonCurrent
        ⟨response.id, response.name, response.login, response.permissions⟩))

/-- The caller ids a trace passes to `user.hasPermission`, in order. -/
def hasPermissionCallers : List Call → List String
  | [] => []
  | Call.hasPermission uid _ :: rest => uid :: hasPermissionCallers rest
  | _ :: rest => hasPermissionCallers rest

/-- The user ids a trace passes to `user.changePassword`, in order. -/
def changePasswordTargets : List Call → List String
  | [] => []
  | Call.changePassword uid _ :: rest => uid :: changePasswordTargets rest
  | _ :: rest => changePasswordTargets rest

/-- Whether a service call is `user.hasPermission`. -/
def isHasPermissionCall : Call → Bool
  | Call.hasPermission _ _ => true
  | _ => false

/-- Whether a service call can mutate user or token state.  `hasPermission`,
`findAll` and `findById` are read-only (spec §4.4, §4.5); every other
operation writes. -/
def isMutatingCall : Call → Bool
  | Call.hasPermission _ _ => false
  | Call.findAll => false
  | Call.findById _ => false
  | _ => true

/-- Two users that agree on every field a response may expose — all fields
except `passwordHash`. -/
def samePublic (u v : User) : Prop :=
  u.id = v.id ∧ u.name = v.name ∧ u.login = v.login ∧
    u.permissions = v.permissions ∧ u.enabled = v.enabled

instance (u v : User) : Decidable (samePublic u v) := by
  unfold samePublic
  infer_instance

/-- State of a session token (spec §3). -/
inductive TokenState where
  | active
  | invalidated
  deriving DecidableEq, Repr

/-- A stored session token (spec §3). -/
structure TokenRec where
  value : String
  userId : String
  issuedAt : Nat
  state : TokenState
  deriving DecidableEq, Repr

/-- Modelled from the spec: the Token Service `invalidate` operation
(spec §4.3); the Token Service source (`src/token/service.ts`) is not in
the repository.  Invalidating an unknown or already-invalidated token
fails `InvalidToken`; otherwise the matching token transitions to the
`invalidated` state and every other token is left unchanged. -/
def invalidateToken (store : List TokenRec) (v : String) :
    Except DomainError (List TokenRec) :=
  match store.find? (fun t => t.value == v) with
  | none => Except.error DomainError.InvalidToken
  | some t =>
    if t.state = TokenState.invalidated then Except.error DomainError.InvalidToken
    else Except.ok (store.map (fun r =>
      if r.value = v then { r with state := TokenState.invalidated } else r))

/-! Concrete fixtures used by the witness theorems. -/

/-- A sample stored user. -/
def userA : User :=
  ⟨"id-a", "Alice", "alice", "hash-a", ["admin"], true⟩

/-- The same user as `userA` up to the stored `passwordHash`. -/
def userA2 : User :=
  ⟨"id-a", "Alice", "alice", "hash-b", ["admin"], true⟩

/-- A service environment in which every operation succeeds. -/
def svcAllOk : Services where
  hasPermission := fun _ _ => Except.ok ()
  grant := fun _ _ => Except.ok ()
  revoke := fun _ _ => Except.ok ()
  enable := fun _ => Except.ok ()
  disable := fun _ => Except.ok ()
  findAll := Except.ok [userA]
  findById := fun _ => Except.ok userA
  register := fun _ => Except.ok "id-new"
  login := fun _ => Except.ok "id-a"
  changePassword := fun _ _ => Except.ok ()
  tokenCreate := fun uid => Except.ok (String.append "tok-" uid)
  tokenInvalidate := fun _ => Except.ok ()

/-- Like `svcAllOk` but the admin check fails `Forbidden`. -/
def svcDeny : Services :=
  { svcAllOk with hasPermission := fun _ _ => Except.error DomainError.Forbidden }

/-- Like `svcAllOk` but registration and login fail. -/
def svcAuthFail : Services :=
  { svcAllOk with
      register := fun _ => Except.error DomainError.DuplicateLogin,
      login := fun _ => Except.error DomainError.InvalidCredentials }

/-- Like `svcAllOk` but `findAll` returns `userA2` instead of `userA`
(the stored state differs only in a `passwordHash`). -/
def svcAllOk2 : Services :=
  { svcAllOk with
      findAll := Except.ok [userA2],
      findById := fun _ => Except.ok userA2 }

/-- A sample resolved session payload. -/
def sess0 : SessionPayload := ⟨"caller-1", "tok-caller-1"⟩

/-- A sample request to the grant/revoke routes. -/
def reqGrant0 : SessionRequest GrantBody := ⟨sess0, ⟨"target-1"⟩, ⟨["p1"]⟩⟩

/-- A sample request to the body-less session routes. -/
def reqUnit0 : SessionRequest Unit := ⟨sess0, ⟨"target-1"⟩, ()⟩

/-- A sample password-change request. -/
def reqPwd0 : SessionRequest PasswordBody := ⟨sess0, ⟨"target-1"⟩, ⟨"old-pw", "new-pw"⟩⟩

/-- A second password-change request: same session, different body and
URL parameter. -/
def reqPwd1 : SessionRequest PasswordBody := ⟨sess0, ⟨"target-2"⟩, ⟨"x-pw", "y-pw"⟩⟩

/-- A sample registration request. -/
def reqSignUp0 : PlainRequest SignUpBody := ⟨⟨"Alice", "alice", "pw-1"⟩⟩

/-- A sample login request. -/
def reqSignIn0 : PlainRequest SignInBody := ⟨⟨"alice", "pw-1"⟩⟩

/-- A second request to the grant route: same session as `reqGrant0`,
different URL parameter and body. -/
def reqGrant1 : SessionRequest GrantBody := ⟨sess0, ⟨"target-2"⟩, ⟨["p2", "p3"]⟩⟩

/-- C1: every privileged route handler (grant, revoke, enable, disable,
list-all-users) evaluates `user.hasPermission(req.user.user_id, "admin")`
as its first service call, and if that check fails the trace is exactly
that single check — the privileged operation (`user.grant` / `user.revoke`
/ `user.enable` / `user.disable` / `user.findAll`) is never invoked — and
the handler propagates the failure instead of sending a success response. -/
theorem privileged_routes_check_admin_first (svc : Services) (e : DomainError) :
    (∀ req : SessionRequest GrantBody,
      (grantPermissions svc req).calls.head? =
          some (Call.hasPermission req.user.user_id "admin") ∧
        (svc.hasPermission req.user.user_id "admin" = Except.error e →
          (grantPermissions svc req).calls =
              [Call.hasPermission req.user.user_id "admin"] ∧
            (grantPermissions svc req).result = Except.error e)) ∧
      (∀ req : SessionRequest GrantBody,
        (revokePermissions svc req).calls.head? =
            some (Call.hasPermission req.user.user_id "admin") ∧
          (svc.hasPermission req.user.user_id "admin" = Except.error e →
            (revokePermissions svc req).calls =
                [Call.hasPermission req.user.user_id "admin"] ∧
              (revokePermissions svc req).result = Except.error e)) ∧
      (∀ req : SessionRequest Unit,
        (enableUser svc req).calls.head? =
            some (Call.hasPermission req.user.user_id "admin") ∧
          (svc.hasPermission req.user.user_id "admin" = Except.error e →
            (enableUser svc req).calls =
                [Call.hasPermission req.user.user_id "admin"] ∧
              (enableUser svc req).result = Except.error e)) ∧
      (∀ req : SessionRequest Unit,
        (disableUser svc req).calls.head? =
            some (Call.hasPermission req.user.user_id "admin") ∧
          (svc.hasPermission req.user.user_id "admin" = Except.error e →
            (disableUser svc req).calls =
                [Call.hasPermission req.user.user_id "admin"] ∧
              (disableUser svc req).result = Except.error e)) ∧
      (∀ req : SessionRequest Unit,
        (getAll svc req).calls.head? =
            some (Call.hasPermission req.user.user_id "admin") ∧
          (svc.hasPermission req.user.user_id "admin" = Except.error e →
            (getAll svc req).calls =
                [Call.hasPermission req.user.user_id "admin"] ∧
              (getAll svc req).result = Except.error e)) := by
  refine ⟨?_, ?_, ?_, ?_, ?_⟩ <;> intro req <;> constructor
  · cases h : svc.hasPermission req.user.user_id "admin" <;>
      simp [grantPermissions, hbind, callSvc, hpure, h]
  · intro h
    simp [grantPermissions, hbind, callSvc, hpure, h]
  · cases h : svc.hasPermission req.user.user_id "admin" <;>
      simp [revokePermissions, hbind, callSvc, hpure, h]
  · intro h
    simp [revokePermissions, hbind, callSvc, hpure, h]
  · cases h : svc.hasPermission req.user.user_id "admin" <;>
      simp [enableUser, hbind, callSvc, hpure, h]
  · intro h
    simp [enableUser, hbind, callSvc, hpure, h]
  · cases h : svc.hasPermission req.user.user_id "admin" <;>
      simp [disableUser, hbind, callSvc, hpure, h]
  · intro h
    simp [disableUser, hbind, callSvc, hpure, h]
  · cases h : svc.hasPermission req.user.user_id "admin" <;>
      simp [getAll, hbind, callSvc, hpure, h]
  · intro h
    simp [getAll, hbind, callSvc, hpure, h]

/-- C1 witness: with a service environment whose admin check fails
`Forbidden`, the grant handler's trace is the single admin check and its
outcome is the propagated `Forbidden`. -/
theorem privileged_routes_check_admin_first_witness :
    (grantPermissions svcDeny reqGrant0).calls =
        [Call.hasPermission "caller-1" "admin"] ∧
      (grantPermissions svcDeny reqGrant0).result =
        Except.error DomainError.Forbidden :=
  ((privileged_routes_check_admin_first svcDeny DomainError.Forbidden).1
    reqGrant0).2 rfl

/-- C2: in every privileged route handler the caller id passed to the
admin permission check is exactly the resolved session identity
`req.user.user_id`: the trace's `hasPermission` caller list is
`[req.user.user_id]`, and two requests with the same session identity but
arbitrary (possibly different) bodies and URL parameters pass the same
caller id. -/
theorem privileged_routes_caller_id_from_session (svc : Services) :
    (∀ req : SessionRequest GrantBody,
      hasPermissionCallers (grantPermissions svc req).calls = [req.user.user_id]) ∧
      (∀ req : SessionRequest GrantBody,
        hasPermissionCallers (revokePermissions svc req).calls = [req.user.user_id]) ∧
      (∀ req : SessionRequest Unit,
        hasPermissionCallers (enableUser svc req).calls = [req.user.user_id]) ∧
      (∀ req : SessionRequest Unit,
        hasPermissionCallers (disableUser svc req).calls = [req.user.user_id]) ∧
      (∀ req : SessionRequest Unit,
        hasPermissionCallers (getAll svc req).calls = [req.user.user_id]) ∧
      (∀ req1 req2 : SessionRequest GrantBody,
        req1.user.user_id = req2.user.user_id →
          hasPermissionCallers (grantPermissions svc req1).calls =
            hasPermissionCallers (grantPermissions svc req2).calls) ∧
      (∀ req1 req2 : SessionRequest GrantBody,
        req1.user.user_id = req2.user.user_id →
          hasPermissionCallers (revokePermissions svc req1).calls =
            hasPermissionCallers (revokePermissions svc req2).calls) ∧
      (∀ req1 req2 : SessionRequest Unit,
        req1.user.user_id = req2.user.user_id →
          hasPermissionCallers (enableUser svc req1).calls =
            hasPermissionCallers (enableUser svc req2).calls) ∧
      (∀ req1 req2 : SessionRequest Unit,
        req1.user.user_id = req2.user.user_id →
          hasPermissionCallers (disableUser svc req1).calls =
            hasPermissionCallers (disableUser svc req2).calls) ∧
      (∀ req1 req2 : SessionRequest Unit,
        req1.user.user_id = req2.user.user_id →
          hasPermissionCallers (getAll svc req1).calls =
            hasPermissionCallers (getAll svc req2).calls) := by
  have hg : ∀ req : SessionRequest GrantBody,
      hasPermissionCallers (grantPermissions svc req).calls = [req.user.user_id] := by
    intro req
    cases h1 : svc.hasPermission req.user.user_id "admin"
    · simp [grantPermissions, hbind, callSvc, hpure, h1, hasPermissionCallers]
    · cases h2 : svc.grant req.params.userID req.body.permissions <;>
        simp [grantPermissions, hbind, callSvc, hpure, h1, h2, hasPermissionCallers]
  have hr : ∀ req : SessionRequest GrantBody,
      hasPermissionCallers (revokePermissions svc req).calls = [req.user.user_id] := by
    intro req
    cases h1 : svc.hasPermission req.user.user_id "admin"
    · simp [revokePermissions, hbind, callSvc, hpure, h1, hasPermissionCallers]
    · cases h2 : svc.revoke req.params.userID req.body.permissions <;>
        simp [revokePermissions, hbind, callSvc, hpure, h1, h2, hasPermissionCallers]
  have he : ∀ req : SessionRequest Unit,
      hasPermissionCallers (enableUser svc req).calls = [req.user.user_id] := by
    intro req
    cases h1 : svc.hasPermission req.user.user_id "admin"
    · simp [enableUser, hbind, callSvc, hpure, h1, hasPermissionCallers]
    · cases h2 : svc.enable req.params.userID <;>
        simp [enableUser, hbind, callSvc, hpure, h1, h2, hasPermissionCallers]
  have hd : ∀ req : SessionRequest Unit,
      hasPermissionCallers (disableUser svc req).calls = [req.user.user_id] := by
    intro req
    cases h1 : svc.hasPermission req.user.user_id "admin"
    · simp [disableUser, hbind, callSvc, hpure, h1, hasPermissionCallers]
    · cases h2 : svc.disable req.params.userID <;>
        simp [disableUser, hbind, callSvc, hpure, h1, h2, hasPermissionCallers]
  have ha : ∀ req : SessionRequest Unit,
      hasPermissionCallers (getAll svc req).calls = [req.user.user_id] := by
    intro req
    cases h1 : svc.hasPermission req.user.user_id "admin"
    · simp [getAll, hbind, callSvc, hpure, h1, hasPermissionCallers]
    · cases h2 : svc.findAll <;>
        simp [getAll, hbind, callSvc, hpure, h1, h2, hasPermissionCallers]
  refine ⟨hg, hr, he, hd, ha, ?_, ?_, ?_, ?_, ?_⟩ <;> intro req1 req2 hEq
  · rw [hg req1, hg req2, hEq]
  · rw [hr req1, hr req2, hEq]
  · rw [he req1, he req2, hEq]
  · rw [hd req1, hd req2, hEq]
  · rw [ha req1, ha req2, hEq]

/-- C2 witness: two grant requests with the same session but different
bodies and URL parameters pass the same caller id to the admin check. -/
theorem privileged_routes_caller_id_from_session_witness :
    hasPermissionCallers (grantPermissions svcAllOk reqGrant0).calls =
      hasPermissionCallers (grantPermissions svcAllOk reqGrant1).calls :=
  (privileged_routes_caller_id_from_session svcAllOk).2.2.2.2.2.1 reqGrant0 reqGrant1 rfl

/-- C3: in the registration and login handlers, `token.create` is invoked
only after `user.register` / `user.login` succeeds and is bound to the
user id they return; if they fail, the trace contains no `token.create`
call and the handler propagates the failure, so no token reaches any
response. -/
theorem token_created_only_after_auth_success (svc : Services) :
    (∀ (req : PlainRequest SignUpBody) (e : DomainError),
      svc.register req.body = Except.error e →
        (signUp svc req).calls = [Call.register req.body] ∧
          (∀ uid : String, Call.tokenCreate uid ∉ (signUp svc req).calls) ∧
          (signUp svc req).result = Except.error e) ∧
      (∀ (req : PlainRequest SignUpBody) (uid : String),
        svc.register req.body = Except.ok uid →
          (signUp svc req).calls = [Call.register req.body, Call.tokenCreate uid]) ∧
      (∀ (req : PlainRequest SignInBody) (e : DomainError),
        svc.login req.body = Except.error e →
          (login svc req).calls = [Call.login req.body] ∧
            (∀ uid : String, Call.tokenCreate uid ∉ (login svc req).calls) ∧
            (login svc req).result = Except.error e) ∧
      (∀ (req : PlainRequest SignInBody) (uid : String),
        svc.login req.body = Except.ok uid →
          (login svc req).calls = [Call.login req.body, Call.tokenCreate uid]) := by
  refine ⟨?_, ?_, ?_, ?_⟩
  · intro req e h
    simp [signUp, hbind, callSvc, hpure, h]
  · intro req uid h
    cases h2 : svc.tokenCreate uid <;>
      simp [signUp, hbind, callSvc, hpure, h, h2]
  · intro req e h
    simp [login, hbind, callSvc, hpure, h]
  · intro req uid h
    cases h2 : svc.tokenCreate uid <;>
      simp [login, hbind, callSvc, hpure, h, h2]

/-- C3 witness: when registration fails `DuplicateLogin`, the signUp
handler records only the register call, creates no token, and propagates
the failure. -/
theorem token_created_only_after_auth_success_witness :
    (signUp svcAuthFail reqSignUp0).calls = [Call.register ⟨"Alice", "alice", "pw-1"⟩] ∧
      Call.tokenCreate "id-new" ∉ (signUp svcAuthFail reqSignUp0).calls ∧
      (signUp svcAuthFail reqSignUp0).result = Except.error DomainError.DuplicateLogin :=
  ⟨((token_created_only_after_auth_success svcAuthFail).1 reqSignUp0
      DomainError.DuplicateLogin rfl).1,
    ((token_created_only_after_auth_success svcAuthFail).1 reqSignUp0
      DomainError.DuplicateLogin rfl).2.1 "id-new",
    ((token_created_only_after_auth_success svcAuthFail).1 reqSignUp0
      DomainError.DuplicateLogin rfl).2.2⟩

/-- C4: the password-change and logout handlers perform no permission
check: they invoke `user.changePassword` / `token.invalidate` as their
only service call, and no call in either trace is `user.hasPermission`. -/
theorem password_and_logout_no_permission_check (svc : Services) :
    (∀ req : SessionRequest PasswordBody,
      (changePassword svc req).calls =
        [Call.changePassword req.user.user_id req.body]) ∧
      (∀ (req : SessionRequest PasswordBody) (c : Call),
        c ∈ (changePassword svc req).calls → isHasPermissionCall c = false) ∧
      (∀ req : SessionRequest Unit,
        (logout svc req).calls = [Call.tokenInvalidate req.user]) ∧
      (∀ (req : SessionRequest Unit) (c : Call),
        c ∈ (logout svc req).calls → isHasPermissionCall c = false) := by
  have h1 : ∀ req : SessionRequest PasswordBody,
      (changePassword svc req).calls =
        [Call.changePassword req.user.user_id req.body] := by
    intro req
    cases h : svc.changePassword req.user.user_id req.body <;>
      simp [changePassword, hbind, callSvc, hpure, h]
  have h3 : ∀ req : SessionRequest Unit,
      (logout svc req).calls = [Call.tokenInvalidate req.user] := by
    intro req
    cases h : svc.tokenInvalidate req.user <;>
      simp [logout, hbind, callSvc, hpure, h]
  refine ⟨h1, ?_, h3, ?_⟩
  · intro req c hc
    rw [h1 req] at hc
    simp only [List.mem_singleton] at hc
    subst hc
    rfl
  · intro req c hc
    rw [h3 req] at hc
    simp only [List.mem_singleton] at hc
    subst hc
    rfl

/-- C4 witness: the single call the password-change handler makes on a
concrete request is not a permission check. -/
theorem password_and_logout_no_permission_check_witness :
    isHasPermissionCall (Call.changePassword "caller-1" ⟨"old-pw", "new-pw"⟩) = false :=
  (password_and_logout_no_permission_check svcAllOk).2.1 reqPwd0
    (Call.changePassword "caller-1" ⟨"old-pw", "new-pw"⟩) (by decide)

/-- C5: on a successful registration, the trace is `user.register`
followed by `token.create` applied to exactly the user id that
`user.register` returned — the register step itself issues no token —
and the response carries exactly the created token. -/
theorem signup_token_issued_by_caller_context (svc : Services) :
    ∀ (req : PlainRequest SignUpBody) (uid t : String),
      svc.register req.body = Except.ok uid →
        svc.tokenCreate uid = Except.ok t →
          (signUp svc req).calls = [Call.register req.body, Call.tokenCreate uid] ∧
            (signUp svc req).result = Except.ok (Response.jsonToken t) := by
  intro req uid t h1 h2
  simp [signUp, hbind, callSvc, hpure, h1, h2]

/-- C5 witness: a concrete successful registration creates the token for
the returned id and responds with it. -/
theorem signup_token_issued_by_caller_context_witness :
    (signUp svcAllOk reqSignUp0).calls =
        [Call.register ⟨"Alice", "alice", "pw-1"⟩, Call.tokenCreate "id-new"] ∧
      (signUp svcAllOk reqSignUp0).result =
        Except.ok (Response.jsonToken "tok-id-new") :=
  signup_token_issued_by_caller_context svcAllOk reqSignUp0 "id-new" "tok-id-new" rfl rfl

/-- A sample active token belonging to the session `sess0`. -/
def tokA : TokenRec := ⟨"tok-caller-1", "id-a", 0, TokenState.active⟩

/-- A sample active token of another user. -/
def tokB : TokenRec := ⟨"tok-b", "id-b", 1, TokenState.active⟩

/-- `tokA` after invalidation. -/
def tokAInv : TokenRec := ⟨"tok-caller-1", "id-a", 0, TokenState.invalidated⟩

/-- A sample token store holding `tokA` and `tokB`. -/
def store0 : List TokenRec := [tokA, tokB]

/-- `store0` after invalidating `tokA`. -/
def store0inv : List TokenRec := [tokAInv, tokB]

/-- C6: the logout handler's only service call is `token.invalidate` on
the session's own payload `req.user`; and the (spec-modelled) invalidate
operation, when it succeeds, transitions the named token to the
`invalidated` state while every token with a different value is kept
unchanged in the store. -/
theorem logout_invalidates_only_session_token (svc : Services) :
    (∀ req : SessionRequest Unit,
      (logout svc req).calls = [Call.tokenInvalidate req.user]) ∧
      (∀ (store store' : List TokenRec) (v : String),
        invalidateToken store v = Except.ok store' →
          (∀ r ∈ store', r.value = v → r.state = TokenState.invalidated) ∧
            (∀ r ∈ store, r.value ≠ v → r ∈ store')) := by
  constructor
  · intro req
    cases h : svc.tokenInvalidate req.user <;>
      simp [logout, hbind, callSvc, hpure, h]
  · intro store store' v h
    unfold invalidateToken at h
    cases hf : store.find? (fun t => t.value == v) with
    | none =>
      rw [hf] at h
      exact absurd h (by simp)
    | some t =>
      rw [hf] at h
      dsimp only at h
      by_cases hs : t.state = TokenState.invalidated
      · rw [if_pos hs] at h
        exact absurd h (by simp)
      · rw [if_neg hs] at h
        have hstore : store' = store.map (fun r =>
            if r.value = v then { r with state := TokenState.invalidated } else r) := by
          cases h
          rfl
        subst hstore
        constructor
        · intro r hr hv
          rcases List.mem_map.mp hr with ⟨r0, hr0, hfr⟩
          by_cases hv0 : r0.value = v
          · rw [if_pos hv0] at hfr
            rw [← hfr]
          · rw [if_neg hv0] at hfr
            subst hfr
            exact absurd hv hv0
        · intro r hr hv
          exact List.mem_map.mpr ⟨r, hr, if_neg hv⟩

/-- C6 witness: on a concrete store, invalidating the session's token
invalidates it and the other user's token survives unchanged; the logout
handler's trace is the single invalidate call on the session payload. -/
theorem logout_invalidates_only_session_token_witness :
    (logout svcAllOk reqUnit0).calls = [Call.tokenInvalidate sess0] ∧
      tokAInv.state = TokenState.invalidated ∧ tokB ∈ store0inv :=
  ⟨(logout_invalidates_only_session_token svcAllOk).1 reqUnit0,
    ((logout_invalidates_only_session_token svcAllOk).2 store0 store0inv
      "tok-caller-1" rfl).1 tokAInv (by decide) rfl,
    ((logout_invalidates_only_session_token svcAllOk).2 store0 store0inv
      "tok-caller-1" rfl).2 tokB (by decide) (by decide)⟩

/-- C7: in every route handler, when an awaited service operation fails
with a domain error, the handler's outcome is exactly that error — the
typed failure propagates to the boundary unchanged and is never turned
into a success response.  One conjunct per failure point of each of the
ten handlers. -/
theorem handlers_propagate_domain_failures (svc : Services) (e : DomainError) :
    (∀ req : SessionRequest PasswordBody,
      svc.changePassword req.user.user_id req.body = Except.error e →
        (changePassword svc req).result = Except.error e) ∧
      (∀ req : PlainRequest SignUpBody,
        svc.register req.body = Except.error e →
          (signUp svc req).result = Except.error e) ∧
      (∀ (req : PlainRequest SignUpBody) (uid : String),
        svc.register req.body = Except.ok uid →
          svc.tokenCreate uid = Except.error e →
            (signUp svc req).result = Except.error e) ∧
      (∀ req : PlainRequest SignInBody,
        svc.login req.body = Except.error e →
          (login svc req).result = Except.error e) ∧
      (∀ (req : PlainRequest SignInBody) (uid : String),
        svc.login req.body = Except.ok uid →
          svc.tokenCreate uid = Except.error e →
            (login svc req).result = Except.error e) ∧
      (∀ req : SessionRequest Unit,
        svc.tokenInvalidate req.user = Except.error e →
          (logout svc req).result = Except.error e) ∧
      (∀ req : SessionRequest GrantBody,
        svc.hasPermission req.user.user_id "admin" = Except.error e →
          (grantPermissions svc req).result = Except.error e) ∧
      (∀ req : SessionRequest GrantBody,
        svc.hasPermission req.user.user_id "admin" = Except.ok () →
          svc.grant req.params.userID req.body.permissions = Except.error e →
            (grantPermissions svc req).result = Except.error e) ∧
      (∀ req : SessionRequest GrantBody,
        svc.hasPermission req.user.user_id "admin" = Except.error e →
          (revokePermissions svc req).result = Except.error e) ∧
      (∀ req : SessionRequest GrantBody,
        svc.hasPermission req.user.user_id "admin" = Except.ok () →
          svc.revoke req.params.userID req.body.permissions = Except.error e →
            (revokePermissions svc req).result = Except.error e) ∧
      (∀ req : SessionRequest Unit,
        svc.hasPermission req.user.user_id "admin" = Except.error e →
          (enableUser svc req).result = Except.error e) ∧
      (∀ req : SessionRequest Unit,
        svc.hasPermission req.user.user_id "admin" = Except.ok () →
          svc.enable req.params.userID = Except.error e →
            (enableUser svc req).result = Except.error e) ∧
      (∀ req : SessionRequest Unit,
        svc.hasPermission req.user.user_id "admin" = Except.error e →
          (disableUser svc req).result = Except.error e) ∧
      (∀ req : SessionRequest Unit,
        svc.hasPermission req.user.user_id "admin" = Except.ok () →
          svc.disable req.params.userID = Except.error e →
            (disableUser svc req).result = Except.error e) ∧
      (∀ req : SessionRequest Unit,
        svc.hasPermission req.user.user_id "admin" = Except.error e →
          (getAll svc req).result = Except.error e) ∧
      (∀ req : SessionRequest Unit,
        svc.hasPermission req.user.user_id "admin" = Except.ok () →
          svc.findAll = Except.error e →
            (getAll svc req).result = Except.error e) ∧
      (∀ req : SessionRequest Unit,
        svc.findById req.user.user_id = Except.error e →
          (current svc req).result = Except.error e) := by
  refine ⟨?_, ?_, ?_, ?_, ?_, ?_, ?_, ?_, ?_, ?_, ?_, ?_, ?_, ?_, ?_, ?_, ?_⟩
  · intro req h
    simp [changePassword, hbind, callSvc, hpure, h]
  · intro req h
    simp [signUp, hbind, callSvc, hpure, h]
  · intro req uid h1 h2
    simp [signUp, hbind, callSvc, hpure, h1, h2]
  · intro req h
    simp [login, hbind, callSvc, hpure, h]
  · intro req uid h1 h2
    simp [login, hbind, callSvc, hpure, h1, h2]
  · intro req h
    simp [logout, hbind, callSvc, hpure, h]
  · intro req h
    simp [grantPermissions, hbind, callSvc, hpure, h]
  · intro req h1 h2
    simp [grantPermissions, hbind, callSvc, hpure, h1, h2]
  · intro req h
    simp [revokePermissions, hbind, callSvc, hpure, h]
  · intro req h1 h2
    simp [revokePermissions, hbind, callSvc, hpure, h1, h2]
  · intro req h
    simp [enableUser, hbind, callSvc, hpure, h]
  · intro req h1 h2
    simp [enableUser, hbind, callSvc, hpure, h1, h2]
  · intro req h
    simp [disableUser, hbind, callSvc, hpure, h]
  · intro req h1 h2
    simp [disableUser, hbind, callSvc, hpure, h1, h2]
  · intro req h
    simp [getAll, hbind, callSvc, hpure, h]
  · intro req h1 h2
    simp [getAll, hbind, callSvc, hpure, h1, h2]
  · intro req h
    simp [current, hbind, callSvc, hpure, h]

/-- Like `svcAllOk` but `user.changePassword` fails `InvalidCredentials`. -/
def svcPwFail : Services :=
  { svcAllOk with
      changePassword := fun _ _ => Except.error DomainError.InvalidCredentials }

/-- C7 witness: a failing `user.changePassword` surfaces as the handler's
outcome on a concrete request, not as a success. -/
theorem handlers_propagate_domain_failures_witness :
    (changePassword svcPwFail reqPwd0).result =
      Except.error DomainError.InvalidCredentials :=
  (handlers_propagate_domain_failures svcPwFail DomainError.InvalidCredentials).1
    reqPwd0 rfl

/-- C8: when the admin check and `user.findAll` succeed, the list-all-users
response is exactly `user.findAll()`'s sequence mapped element-wise to the
fields id, name, login, permissions, enabled — same length, same order —
and the handler's trace contains only read-only calls (no mutation). -/
theorem getAll_is_read_only_projection (svc : Services) :
    ∀ (req : SessionRequest Unit) (us : List User),
      svc.hasPermission req.user.user_id "admin" = Except.ok () →
        svc.findAll = Except.ok us →
          (getAll svc req).result =
              Except.ok (Response.jsonUsers (us.map projectUser)) ∧
            (us.map projectUser).length = us.length ∧
            (∀ i : Nat, (us.map projectUser)[i]? = us[i]?.map projectUser) ∧
            (getAll svc req).calls =
              [Call.hasPermission req.user.user_id "admin", Call.findAll] ∧
            (∀ c ∈ (getAll svc req).calls, isMutatingCall c = false) := by
  intro req us h1 h2
  have hcalls : (getAll svc req).calls =
      [Call.hasPermission req.user.user_id "admin", Call.findAll] := by
    simp [getAll, hbind, callSvc, hpure, h1, h2]
  refine ⟨?_, ?_, ?_, hcalls, ?_⟩
  · simp [getAll, hbind, callSvc, hpure, h1, h2]
  · simp
  · intro i
    simp [List.getElem?_map]
  · intro c hc
    rw [hcalls] at hc
    simp only [List.mem_cons, List.mem_singleton, List.not_mem_nil, or_false] at hc
    rcases hc with hc | hc <;> subst hc <;> rfl

/-- C8 witness: on a concrete state the list response is the projected
sequence, the trace is the two read-only calls, and lengths agree. -/
theorem getAll_is_read_only_projection_witness :
    (getAll svcAllOk reqUnit0).result =
        Except.ok (Response.jsonUsers [⟨"id-a", "Alice", "alice", ["admin"], true⟩]) ∧
      (getAll svcAllOk reqUnit0).calls =
        [Call.hasPermission "caller-1" "admin", Call.findAll] :=
  ⟨(getAll_is_read_only_projection svcAllOk reqUnit0 [userA] rfl rfl).1,
    (getAll_is_read_only_projection svcAllOk reqUnit0 [userA] rfl rfl).2.2.2.1⟩

/-- C9: the user id the password-change handler passes to
`user.changePassword` is exactly the resolved session's `user_id`; two
requests with the same session identity but different bodies and URL
parameters target the same user. -/
theorem changePassword_targets_session_user (svc : Services) :
    (∀ req : SessionRequest PasswordBody,
      changePasswordTargets (changePassword svc req).calls = [req.user.user_id]) ∧
      (∀ req1 req2 : SessionRequest PasswordBody,
        req1.user.user_id = req2.user.user_id →
          changePasswordTargets (changePassword svc req1).calls =
            changePasswordTargets (changePassword svc req2).calls) := by
  have h1 : ∀ req : SessionRequest PasswordBody,
      changePasswordTargets (changePassword svc req).calls = [req.user.user_id] := by
    intro req
    cases h : svc.changePassword req.user.user_id req.body <;>
      simp [changePassword, hbind, callSvc, hpure, h, changePasswordTargets]
  refine ⟨h1, ?_⟩
  intro req1 req2 hEq
  rw [h1 req1, h1 req2, hEq]

/-- C9 witness: two password-change requests with the same session but
different bodies and URL parameters target the same user id. -/
theorem changePassword_targets_session_user_witness :
    changePasswordTargets (changePassword svcAllOk reqPwd0).calls =
      changePasswordTargets (changePassword svcAllOk reqPwd1).calls :=
  (changePassword_targets_session_user svcAllOk).2 reqPwd0 reqPwd1 rfl

/-- Users that agree on all public fields have equal list projections:
`projectUser` never reads `passwordHash`. -/
theorem projectUser_eq_of_samePublic {u v : User} (h : samePublic u v) :
    projectUser u = projectUser v := by
  obtain ⟨h1, h2, h3, h4, h5⟩ := h
  simp [projectUser, h1, h2, h3, h4, h5]

/-- Lists of users related pointwise on public fields have equal
projected lists. -/
theorem map_projectUser_eq_of_forall₂ {us vs : List User}
    (h : List.Forall₂ samePublic us vs) :
    us.map projectUser = vs.map projectUser := by
  induction h with
  | nil => rfl
  | cons h1 _ ih => simp [projectUser_eq_of_samePublic h1, ih]

/-- C10: no response exposes `passwordHash`.  If two service states agree
on everything the handlers read except that stored users may differ in
`passwordHash` (pointwise `samePublic`), then the list-all-users response
and the current-user response are identical across the two states. -/
theorem responses_independent_of_passwordHash (svc1 svc2 : Services) :
    (∀ (req : SessionRequest Unit) (us vs : List User),
      svc1.hasPermission req.user.user_id "admin" =
          svc2.hasPermission req.user.user_id "admin" →
        svc1.findAll = Except.ok us →
          svc2.findAll = Except.ok vs →
            List.Forall₂ samePublic us vs →
              (getAll svc1 req).result = (getAll svc2 req).result) ∧
      (∀ (req : SessionRequest Unit) (u v : User),
        svc1.findById req.user.user_id = Except.ok u →
          svc2.findById req.user.user_id = Except.ok v →
            samePublic u v →
              (current svc1 req).result = (current svc2 req).result) := by
  constructor
  · intro req us vs hp hf1 hf2 hrel
    cases h1 : svc1.hasPermission req.user.user_id "admin" with
    | error e =>
      have h2 : svc2.hasPermission req.user.user_id "admin" = Except.error e := by
        rw [← hp, h1]
      simp [getAll, hbind, callSvc, hpure, h1, h2]
    | ok a =>
      have h2 : svc2.hasPermission req.user.user_id "admin" = Except.ok a := by
        rw [← hp, h1]
      simp [getAll, hbind, callSvc, hpure, h1, h2, hf1, hf2,
        map_projectUser_eq_of_forall₂ hrel]
  · intro req u v hu hv hsame
    obtain ⟨h1, h2, h3, h4, h5⟩ := hsame
    simp [current, hbind, callSvc, hpure, hu, hv, h1, h2, h3, h4]

/-- C10 witness: two concrete states whose single stored user differs
only in `passwordHash` produce identical list and current-user
responses. -/
theorem responses_independent_of_passwordHash_witness :
    (getAll svcAllOk reqUnit0).result = (getAll svcAllOk2 reqUnit0).result ∧
      (current svcAllOk reqUnit0).result = (current svcAllOk2 reqUnit0).result :=
  ⟨(responses_independent_of_passwordHash svcAllOk svcAllOk2).1 reqUnit0
      [userA] [userA2] rfl rfl rfl
      (List.Forall₂.cons (by decide) List.Forall₂.nil),
    (responses_independent_of_passwordHash svcAllOk svcAllOk2).2 reqUnit0
      userA userA2 rfl rfl (by decide)⟩

end CardGame
